import Mathlib

/-
Verification of the aruco_ros2 node (src/aruco_ros2/src/aruco_ros2.cpp).

The development shallowly embeds the node in Lean 4:
  - the tf2 geometry layer (quaternions, 3x3 matrices, rigid transforms and
    their composition) is embedded over the rationals, following the tf2
    formulas used through fromMsg / Transform::operator* on the code path;
  - the per-frame image callback is embedded as a pure function from the
    node configuration, node state, and a per-frame environment (the results
    of the external detector, pose estimator, clock and transform lookup)
    to the set of observable effects (broadcasts, published messages, logs);
  - the camera-info callback and the startup initialization sequence are
    embedded likewise.
Floating-point numerics of the external capabilities (cv Rodrigues, the
matrix-to-quaternion extraction) are irrational and are passed in as opaque
parameters of the environment; no claim below depends on their values.
-/

namespace ArucoRos2

/-! ## Geometry layer: tf2 quaternions, matrices and transforms -/

/-- A 3-vector with rational components, embedding tf2 Vector3. -/
structure Vec3 where
  x : ℚ
  y : ℚ
  z : ℚ
deriving DecidableEq, Repr

/-- A quaternion with rational components, embedding tf2 Quaternion
(storage order x, y, z, w as in tf2). -/
structure Quat where
  x : ℚ
  y : ℚ
  z : ℚ
  w : ℚ
deriving DecidableEq, Repr

/-- A 3x3 matrix with rational entries, embedding tf2 Matrix3x3. -/
structure Mat3 where
  m00 : ℚ
  m01 : ℚ
  m02 : ℚ
  m10 : ℚ
  m11 : ℚ
  m12 : ℚ
  m20 : ℚ
  m21 : ℚ
  m22 : ℚ
deriving DecidableEq, Repr

/-- Quaternion product, embedding tf2 Quaternion operator*. -/
def quatMul (a b : Quat) : Quat :=
  ⟨a.w * b.x + a.x * b.w + a.y * b.z - a.z * b.y,
   a.w * b.y + a.y * b.w + a.z * b.x - a.x * b.z,
   a.w * b.z + a.z * b.w + a.x * b.y - a.y * b.x,
   a.w * b.w - a.x * b.x - a.y * b.y - a.z * b.z⟩

/-- Squared norm of a quaternion, embedding tf2 Quaternion::length2. -/
def length2 (q : Quat) : ℚ := q.x ^ 2 + q.y ^ 2 + q.z ^ 2 + q.w ^ 2

/-- Rotation matrix of a quaternion, embedding tf2 Matrix3x3::setRotation
(the conversion applied by tf2::fromMsg when a transform message is turned
into a tf2::Transform). -/
def matFromQuat (q : Quat) : Mat3 :=
  let d := length2 q
  let s := 2 / d
  let xs := q.x * s
  let ys := q.y * s
  let zs := q.z * s
  let wx := q.w * xs
  let wy := q.w * ys
  let wz := q.w * zs
  let xx := q.x * xs
  let xy := q.x * ys
  let xz := q.x * zs
  let yy := q.y * ys
  let yz := q.y * zs
  let zz := q.z * zs
  ⟨1 - (yy + zz), xy - wz, xz + wy,
   xy + wz, 1 - (xx + zz), yz - wx,
   xz - wy, yz + wx, 1 - (xx + yy)⟩

/-- Homogeneous (division-free) form of the quaternion rotation matrix; for
a unit quaternion it coincides with matFromQuat. -/
def matHomog (q : Quat) : Mat3 :=
  ⟨q.w ^ 2 + q.x ^ 2 - q.y ^ 2 - q.z ^ 2, 2 * (q.x * q.y - q.w * q.z), 2 * (q.x * q.z + q.w * q.y),
   2 * (q.x * q.y + q.w * q.z), q.w ^ 2 - q.x ^ 2 + q.y ^ 2 - q.z ^ 2, 2 * (q.y * q.z - q.w * q.x),
   2 * (q.x * q.z - q.w * q.y), 2 * (q.y * q.z + q.w * q.x), q.w ^ 2 - q.x ^ 2 - q.y ^ 2 + q.z ^ 2⟩

/-- Matrix product, embedding tf2 Matrix3x3 operator*. -/
def mat3Mul (a b : Mat3) : Mat3 :=
  ⟨a.m00 * b.m00 + a.m01 * b.m10 + a.m02 * b.m20,
   a.m00 * b.m01 + a.m01 * b.m11 + a.m02 * b.m21,
   a.m00 * b.m02 + a.m01 * b.m12 + a.m02 * b.m22,
   a.m10 * b.m00 + a.m11 * b.m10 + a.m12 * b.m20,
   a.m10 * b.m01 + a.m11 * b.m11 + a.m12 * b.m21,
   a.m10 * b.m02 + a.m11 * b.m12 + a.m12 * b.m22,
   a.m20 * b.m00 + a.m21 * b.m10 + a.m22 * b.m20,
   a.m20 * b.m01 + a.m21 * b.m11 + a.m22 * b.m21,
   a.m20 * b.m02 + a.m21 * b.m12 + a.m22 * b.m22⟩

/-- Matrix-vector product, embedding tf2 Matrix3x3 applied to a Vector3. -/
def mat3MulVec (a : Mat3) (v : Vec3) : Vec3 :=
  ⟨a.m00 * v.x + a.m01 * v.y + a.m02 * v.z,
   a.m10 * v.x + a.m11 * v.y + a.m12 * v.z,
   a.m20 * v.x + a.m21 * v.y + a.m22 * v.z⟩

/-- Vector addition. -/
def vec3Add (a b : Vec3) : Vec3 := ⟨a.x + b.x, a.y + b.y, a.z + b.z⟩

/-- A rigid transform as tf2::Transform stores it: a rotation basis matrix
and an origin vector. -/
structure TF2Transform where
  basis : Mat3
  origin : Vec3
deriving DecidableEq, Repr

/-- Transform composition, embedding tf2 Transform operator*:
basis is the matrix product, origin is basis1 applied to origin2 plus
origin1. This is the composition the image callback performs at
tf_map_to_marker = tf_map_to_camera * tf_camera_to_marker. -/
def tf2Mul (a b : TF2Transform) : TF2Transform :=
  ⟨mat3Mul a.basis b.basis, vec3Add (mat3MulVec a.basis b.origin) a.origin⟩

/-- A geometry transform message: translation plus rotation quaternion,
embedding geometry_msgs Transform. -/
structure TransformMsg where
  translation : Vec3
  rotation : Quat
deriving DecidableEq, Repr

/-- Conversion of a transform message into a tf2 Transform, embedding
tf2::fromMsg: the quaternion becomes the basis matrix via setRotation. -/
def transformOfMsg (t : TransformMsg) : TF2Transform :=
  ⟨matFromQuat t.rotation, t.translation⟩

/-- Modelled from the spec: standard rigid-transform composition with the
rotation composed by quaternion multiplication and the translation composed
as R1 applied to t2 plus t1. Stated for comparison with the tf2 code path. -/
def specCompose (q1 : Quat) (t1 : Vec3) (q2 : Quat) (t2 : Vec3) : Quat × Vec3 :=
  (quatMul q1 q2, vec3Add (mat3MulVec (matFromQuat q1) t2) t1)

/-! ## Helper lemmas on the geometry layer -/

theorem length2_quatMul (a b : Quat) : length2 (quatMul a b) = length2 a * length2 b := by
  simp only [length2, quatMul]
  ring

theorem matHomog_mul (a b : Quat) :
    mat3Mul (matHomog a) (matHomog b) = matHomog (quatMul a b) := by
  simp only [mat3Mul, matHomog, quatMul, Mat3.mk.injEq]
  refine ⟨?_, ?_, ?_, ?_, ?_, ?_, ?_, ?_, ?_⟩ <;> ring

theorem matFromQuat_of_unit (q : Quat) (h : length2 q = 1) :
    matFromQuat q = matHomog q := by
  have h9 : q.x ^ 2 + q.y ^ 2 + q.z ^ 2 + q.w ^ 2 = 1 := h
  simp only [matFromQuat, matHomog, h, Mat3.mk.injEq]
  refine ⟨?_, ?_, ?_, ?_, ?_, ?_, ?_, ?_, ?_⟩ <;>
    first
      | linear_combination h9
      | linear_combination -h9
      | ring

/-! ## Node data model and the per-frame image callback -/

/-- The configuration parameters of the node that the image callback reads. -/
structure NodeConfig where
  marker_size : ℚ
  camera_frame : String
deriving DecidableEq, Repr

/-- The mutable node state read by the image callback. -/
structure NodeState where
  received_camera_info : Bool
deriving DecidableEq, Repr

/-- One detected marker candidate: the id and the four 2D corner points, as
returned by cv aruco detectMarkers (index-aligned lists marker_ids and
marker_corners in the code). -/
structure DetectedMarker where
  id : Int
  corners : List (ℚ × ℚ)
deriving DecidableEq, Repr

/-- A pose estimate row: the rotation vector rvec and translation vector
tvec of one marker, as returned by estimatePoseSingleMarkers. -/
structure PoseCV where
  rvec : Vec3
  tvec : Vec3
deriving DecidableEq, Repr

/-- The per-frame environment: the clock value, the outcome of image
decoding, the results of the external detector and pose estimator, the
result of the map-to-camera transform lookup, and the two irrational
external conversions (cv Rodrigues and the tf2 matrix-to-quaternion
extraction getRotation) passed in as opaque functions. A pose entry of
none embeds an empty rvec or tvec row; a lookup of none embeds a
tf2 TransformException thrown by lookupTransform. The clock is modelled
as one value per callback activation. -/
structure CallbackEnv where
  now : ℚ
  decode_ok : Bool
  detections : List DetectedMarker
  poses : List (Option PoseCV)
  map_to_camera : Option TransformMsg
  rodrigues : Vec3 → Mat3
  matToQuat : Mat3 → Quat

/-- An incoming image message: only its header timestamp matters to the
embedding (the pixel content feeds the external detector, which the
environment already resolves). -/
structure ImageMsg where
  stamp : ℚ
deriving DecidableEq, Repr

/-- A stamped transform, embedding geometry_msgs TransformStamped as the
broadcaster sends it. -/
structure TransformStamped where
  stamp : ℚ
  frame_id : String
  child_frame_id : String
  translation : Vec3
  rotation : Quat
deriving DecidableEq, Repr

/-- One published marker record, embedding aruco_ros2_msgs Marker. The
composed world pose is kept in tf2 Transform form (basis matrix plus
origin); the code converts its rotation back to a quaternion through
getRotation, an irrational extraction that no claim inspects. -/
structure MarkerMsg where
  frame_id : String
  stamp : ℚ
  id : Int
  pose : TF2Transform
  pixel_x : ℚ
  pixel_y : ℚ
deriving DecidableEq, Repr

/-- The published marker array, embedding aruco_ros2_msgs MarkerArray. -/
structure MarkerArrayMsg where
  stamp : ℚ
  frame_id : String
  markers : List MarkerMsg
deriving DecidableEq, Repr

/-- The republished annotated image: the header stamp it carries and the
ids of the markers whose axes were drawn onto it, in drawing order. -/
structure PublishedImage where
  stamp : ℚ
  annotations : List Int
deriving DecidableEq, Repr

/-- How the marker loop ended: normally, by the early return on an empty
pose row, or by the exception thrown by the map-to-camera lookup. -/
inductive LoopExit where
  | normal : LoopExit
  | degenerate : ℕ → LoopExit
  | lookupFail : ℕ → LoopExit
deriving DecidableEq, Repr

/-- Everything the marker loop accumulates: the transforms already sent
(sendTransform fires immediately, so these survive a later abort), the
marker records pushed into the local array, the axis annotations drawn
onto the image, the way the loop ended, and the warnings logged. -/
structure LoopResult where
  broadcasts : List TransformStamped
  markers : List MarkerMsg
  annotations : List Int
  loopExit : LoopExit
  warnings : List String
deriving DecidableEq, Repr

/-- The marker loop of image_callback (the for loop over marker_ids),
embedded as structural recursion over the detection list, carrying the
loop index i. Each iteration: read the pose row i (empty row embeds as
none and triggers the early return); build and immediately send the
stamped transform from the camera frame to the per-marker frame; look up
the map-to-camera transform (none embeds the thrown TransformException,
which aborts the loop after the broadcast already went out); compose the
world pose with tf2 Transform multiplication; push the marker record with
the image timestamp and the first corner; draw the axis annotation. -/
def markerLoop (cfg : NodeConfig) (env : CallbackEnv) (imgStamp : ℚ) :
    ℕ → List DetectedMarker → LoopResult
  | _, [] => ⟨[], [], [], .normal, []⟩
  | i, d :: rest =>
    match env.poses.getD i none with
    | none => ⟨[], [], [], .degenerate i, ["Pose estimation failed for marker."]⟩
    | some p =>
      let q := env.matToQuat (env.rodrigues p.rvec)
      let mt : TransformStamped :=
        ⟨env.now, cfg.camera_frame, "aruco_marker_" ++ toString d.id, p.tvec, q⟩
      match env.map_to_camera with
      | none => ⟨[mt], [], [], .lookupFail i, ["TF2 exception"]⟩
      | some m2c =>
        let tf_map_to_marker :=
          tf2Mul (transformOfMsg m2c) (transformOfMsg ⟨p.tvec, q⟩)
        let firstCorner := d.corners.getD 0 (0, 0)
        let mk : MarkerMsg :=
          ⟨"map", imgStamp, d.id, tf_map_to_marker, firstCorner.1, firstCorner.2⟩
        let res := markerLoop cfg env imgStamp (i + 1) rest
        ⟨mt :: res.broadcasts, mk :: res.markers, d.id :: res.annotations,
         res.loopExit, res.warnings⟩

/-- The observable effects of one image callback activation. -/
structure CallbackOutput where
  broadcasts : List TransformStamped
  published_image : Option PublishedImage
  published_marker_array : Option MarkerArrayMsg
  warnings : List String
  infos : List String
  errors : List String
deriving DecidableEq, Repr

/-- The image callback, embedded as a pure function to observable effects.
It mirrors the code path: return immediately while camera info is missing;
stamp the marker array header with the clock and the frame id map; a
decode failure (cv_bridge exception) skips to the error handler; run the
marker loop; the publish calls for the annotated image and the marker
array at the end of the try block execute only when the loop ended
normally, since both the early return on an empty pose row and the
exception from the transform lookup leave the try block before them. -/
def image_callback (cfg : NodeConfig) (st : NodeState) (env : CallbackEnv)
    (msg : ImageMsg) : CallbackOutput :=
  if st.received_camera_info = false then
    ⟨[], none, none, [], ["Waiting for camera info."], []⟩
  else if env.decode_ok = false then
    ⟨[], none, none, [], [], ["CV Bridge exception"]⟩
  else
    let res := markerLoop cfg env msg.stamp 0 env.detections
    match res.loopExit with
    | .normal =>
      ⟨res.broadcasts, some ⟨msg.stamp, res.annotations⟩,
       some ⟨env.now, "map", res.markers⟩, res.warnings, [], []⟩
    | _ => ⟨res.broadcasts, none, none, res.warnings, [], []⟩

/-! ## Camera info callback -/

/-- A camera info message, embedding sensor_msgs CameraInfo: k is a
fixed-size array of nine intrinsics (std array, indexing always in
bounds by type), d is a variable-length vector of distortion
coefficients. -/
structure CameraInfoMsg where
  width : ℕ
  height : ℕ
  k : Fin 9 → ℚ
  d : List ℚ

/-- The calibration state the camera info callback mutates. -/
structure CamState where
  camera_matrix : Option (Fin 9 → ℚ)
  camera_distortion : List ℚ
  received_camera_info : Bool

/-- The camera info callback: store the intrinsic matrix; reset the
distortion to a 1x4 zero matrix and, when the message carries a non-empty
distortion vector, reallocate it to the message length and copy the
coefficients elementwise; on the first message only, log the calibration,
reading d at indices 0 through 4 unconditionally. The second component
returns every distortion-vector index access performed by that log, as
Option values: an access out of bounds yields none (in the C++ source it
is an out-of-bounds vector read). -/
def camera_info_callback (st : CamState) (msg : CameraInfoMsg) :
    CamState × List (Option ℚ) :=
  let dist :=
    if msg.d = [] then List.replicate 4 (0 : ℚ)
    else (List.range msg.d.length).map (fun i => msg.d.getD i 0)
  let logAccesses :=
    if st.received_camera_info = false then
      [msg.d.get? 0, msg.d.get? 1, msg.d.get? 2, msg.d.get? 3, msg.d.get? 4]
    else []
  (⟨some msg.k, dist, true⟩, logAccesses)

/-! ## Startup: dictionary validation and the initialization sequence -/

/-- The predefined dictionary identifiers of cv aruco that the node maps
configuration strings onto. -/
inductive DictId where
  | DICT_4X4_50 | DICT_4X4_100 | DICT_4X4_250 | DICT_4X4_1000
  | DICT_5X5_50 | DICT_5X5_100 | DICT_5X5_250 | DICT_5X5_1000
  | DICT_6X6_50 | DICT_6X6_100 | DICT_6X6_250 | DICT_6X6_1000
  | DICT_7X7_50 | DICT_7X7_100 | DICT_7X7_250 | DICT_7X7_1000
  | DICT_ARUCO_ORIGINAL
  | DICT_APRILTAG_16h5 | DICT_APRILTAG_25h9
  | DICT_APRILTAG_36h10 | DICT_APRILTAG_36h11
deriving DecidableEq, Repr

/-- The association table dict_name_map of dictNameToEnum, embedding the
unordered_map from configuration strings to dictionary identifiers. -/
def dictTable : List (String × DictId) :=
  [("DICT_4X4_50", .DICT_4X4_50), ("DICT_4X4_100", .DICT_4X4_100),
   ("DICT_4X4_250", .DICT_4X4_250), ("DICT_4X4_1000", .DICT_4X4_1000),
   ("DICT_5X5_50", .DICT_5X5_50), ("DICT_5X5_100", .DICT_5X5_100),
   ("DICT_5X5_250", .DICT_5X5_250), ("DICT_5X5_1000", .DICT_5X5_1000),
   ("DICT_6X6_50", .DICT_6X6_50), ("DICT_6X6_100", .DICT_6X6_100),
   ("DICT_6X6_250", .DICT_6X6_250), ("DICT_6X6_1000", .DICT_6X6_1000),
   ("DICT_7X7_50", .DICT_7X7_50), ("DICT_7X7_100", .DICT_7X7_100),
   ("DICT_7X7_250", .DICT_7X7_250), ("DICT_7X7_1000", .DICT_7X7_1000),
   ("DICT_ARUCO_ORIGINAL", .DICT_ARUCO_ORIGINAL),
   ("DICT_APRILTAG_16h5", .DICT_APRILTAG_16h5),
   ("DICT_APRILTAG_25h9", .DICT_APRILTAG_25h9),
   ("DICT_APRILTAG_36h10", .DICT_APRILTAG_36h10),
   ("DICT_APRILTAG_36h11", .DICT_APRILTAG_36h11)]

/-- dictNameToEnum: look the configured name up in the table; an unknown
string throws invalid_argument, embedded as none. -/
def dictNameToEnum (dict_name : String) : Option DictId :=
  dictTable.lookup dict_name

/-- The twenty-one valid dictionary configuration strings. -/
def validDictNames : List String :=
  ["DICT_4X4_50", "DICT_4X4_100", "DICT_4X4_250", "DICT_4X4_1000",
   "DICT_5X5_50", "DICT_5X5_100", "DICT_5X5_250", "DICT_5X5_1000",
   "DICT_6X6_50", "DICT_6X6_100", "DICT_6X6_250", "DICT_6X6_1000",
   "DICT_7X7_50", "DICT_7X7_100", "DICT_7X7_250", "DICT_7X7_1000",
   "DICT_ARUCO_ORIGINAL",
   "DICT_APRILTAG_16h5", "DICT_APRILTAG_25h9",
   "DICT_APRILTAG_36h10", "DICT_APRILTAG_36h11"]

/-- The result of running the initialization sequence: which topic
subscriptions and publishers had been established when it finished or
threw, and whether it completed. In the source, initialize subscribes to
the image topic, creates the publishers, subscribes to the camera info
topic, creates the result image publisher and the transform broadcaster,
and only then resolves the dictionary name; a bad name throws out of
dictNameToEnum at that last step, after every subscription already
exists. -/
structure InitResult where
  subscriptions : List String
  publishers : List String
  success : Bool
deriving DecidableEq, Repr

/-- The initialization sequence of the node, embedded as the trace of the
endpoints it establishes in program order plus the outcome of the final
dictionary resolution. -/
def initTrace (image_topic camera_info_topic dictionary : String) : InitResult :=
  ⟨[image_topic, camera_info_topic],
   ["aruco_marker_info", "/aruco/markers", "/aruco/result"],
   (dictNameToEnum dictionary).isSome⟩

/-! ## Structural lemmas about the marker loop -/

theorem markerLoop_abort (cfg : NodeConfig) (env : CallbackEnv) (s : ℚ) :
    ∀ (ds : List DetectedMarker) (i k : ℕ), k < ds.length →
      env.poses.getD (i + k) none = none →
      (markerLoop cfg env s i ds).loopExit ≠ LoopExit.normal ∧
      (markerLoop cfg env s i ds).broadcasts.length ≤ k ∧
      (markerLoop cfg env s i ds).warnings ≠ [] := by
  intro ds
  induction ds with
  | nil => intro i k hk _; exact absurd hk (by simp)
  | cons d rest ih =>
    intro i k hk hdeg
    simp only [markerLoop]
    cases hpi : env.poses.getD i none with
    | none => simp
    | some p =>
      cases k with
      | zero =>
        rw [Nat.add_zero, hpi] at hdeg
        exact absurd hdeg (by simp)
      | succ k2 =>
        cases hmap : env.map_to_camera with
        | none => simp
        | some m2c =>
          have hk2 : k2 < rest.length := by
            simpa using Nat.lt_of_succ_lt_succ (by simpa using hk)
          have hd2 : env.poses.getD (i + 1 + k2) none = none := by
            have he : i + 1 + k2 = i + (k2 + 1) := by omega
            rw [he]; exact hdeg
          have h := ih (i + 1) k2 hk2 hd2
          refine ⟨h.1, ?_, h.2.2⟩
          simpa using Nat.succ_le_succ h.2.1

theorem markerLoop_shape (cfg : NodeConfig) (env : CallbackEnv) (s : ℚ) :
    ∀ (ds : List DetectedMarker) (i : ℕ),
      (∀ b ∈ (markerLoop cfg env s i ds).broadcasts,
        b.frame_id = cfg.camera_frame ∧ b.stamp = env.now ∧
        ∃ d ∈ ds, b.child_frame_id = "aruco_marker_" ++ toString d.id) ∧
      (∀ m ∈ (markerLoop cfg env s i ds).markers,
        m.frame_id = "map" ∧ m.stamp = s) := by
  intro ds
  induction ds with
  | nil => intro i; simp [markerLoop]
  | cons d rest ih =>
    intro i
    simp only [markerLoop]
    cases hpi : env.poses.getD i none with
    | none => simp
    | some p =>
      cases hmap : env.map_to_camera with
      | none =>
        refine ⟨?_, by simp⟩
        intro b hb
        simp only [List.mem_singleton] at hb
        subst hb
        exact ⟨rfl, rfl, d, by simp, rfl⟩
      | some m2c =>
        have h := ih (i + 1)
        constructor
        · intro b hb
          rcases List.mem_cons.mp hb with hb | hb
          · subst hb; exact ⟨rfl, rfl, d, by simp, rfl⟩
          · obtain ⟨h1, h2, d2, hd2, h3⟩ := h.1 b hb
            exact ⟨h1, h2, d2, by simp [hd2], h3⟩
        · intro m hm
          rcases List.mem_cons.mp hm with hm | hm
          · subst hm; exact ⟨rfl, rfl⟩
          · exact h.2 m hm

/-! ## Concrete fixtures used by witnesses and counterexamples -/

/-- The identity rotation matrix, used as a stub value for the opaque
Rodrigues conversion in concrete environments. -/
def idMat3 : Mat3 := ⟨1, 0, 0, 0, 1, 0, 0, 0, 1⟩

/-- The identity quaternion. -/
def idQuat : Quat := ⟨0, 0, 0, 1⟩

/-- The identity transform message, used as a concrete map-to-camera
lookup result. -/
def idTransformMsg : TransformMsg := ⟨⟨0, 0, 0⟩, idQuat⟩

/-- A concrete node configuration with the default camera frame. -/
def cfgW : NodeConfig := ⟨1 / 10, "camera_rgb_optical_frame"⟩

/-- Node state after calibration has been received. -/
def stReady : NodeState := ⟨true⟩

/-- Node state before any calibration message. -/
def stNotReady : NodeState := ⟨false⟩

/-- A concrete image message with timestamp 2. -/
def msgW : ImageMsg := ⟨2⟩

/-- A detected marker with id 7. -/
def marker7 : DetectedMarker := ⟨7, [(10, 20), (30, 20), (30, 40), (10, 40)]⟩

/-- A detected marker with id 12. -/
def marker12 : DetectedMarker := ⟨12, [(50, 60), (70, 60), (70, 80), (50, 80)]⟩

/-- A well-conditioned pose estimate row. -/
def poseA : PoseCV := ⟨⟨0, 0, 0⟩, ⟨1, 2, 3⟩⟩

/-- Environment of a frame whose single marker has a degenerate pose row. -/
def envC1 : CallbackEnv :=
  ⟨5, true, [marker7], [none], some idTransformMsg, fun _ => idMat3, fun _ => idQuat⟩

/-- Environment of a frame with two well-posed markers and a failing
map-to-camera lookup. -/
def envC2 : CallbackEnv :=
  ⟨5, true, [marker7, marker12], [some poseA, some poseA], none,
   fun _ => idMat3, fun _ => idQuat⟩

/-- Environment of a frame with zero detected markers, at clock value 1. -/
def envC5 : CallbackEnv :=
  ⟨1, true, [], [], some idTransformMsg, fun _ => idMat3, fun _ => idQuat⟩

/-- An image message with timestamp 0, distinct from the clock of envC5. -/
def msgC5 : ImageMsg := ⟨0⟩

/-- Environment of a fully successful one-marker frame. -/
def envC7 : CallbackEnv :=
  ⟨5, true, [marker7], [some poseA], some idTransformMsg,
   fun _ => idMat3, fun _ => idQuat⟩

/-! ## Auxiliary list lemma -/

theorem range_map_getD (l : List ℚ) :
    (List.range l.length).map (fun i => l.getD i 0) = l := by
  induction l with
  | nil => simp
  | cons a t ih =>
    simp only [List.length_cons, List.range_succ_eq_map, List.map_cons,
      List.getD_cons_zero, List.map_map, Function.comp_def, List.getD_cons_succ]
    rw [ih]

theorem lookup_isSome_iff {β : Type} (s : String) :
    ∀ l : List (String × β), (l.lookup s).isSome = true ↔ s ∈ l.map Prod.fst := by
  intro l
  induction l with
  | nil => simp
  | cons p rest ih =>
    obtain ⟨a, b⟩ := p
    by_cases hs : s = a
    · subst hs
      simp [List.lookup_cons]
    · simp [List.lookup_cons, beq_false_of_ne hs, ih, hs]

/-! ## Claims -/

/-- Claim C4: for every image that arrives before any calibration message
has been received, the frame is skipped entirely: no marker-record set is
published, no transform is broadcast, and no annotated image is published
for that frame; only the waiting log line is emitted. -/
theorem c4_no_calibration_skip (cfg : NodeConfig) (st : NodeState)
    (env : CallbackEnv) (msg : ImageMsg)
    (hr : st.received_camera_info = false) :
    image_callback cfg st env msg =
      ⟨[], none, none, [], ["Waiting for camera info."], []⟩ := by
  simp [image_callback, hr]

/-- Witness for claim C4 at a concrete frame. -/
theorem c4_witness :
    image_callback cfgW stNotReady envC1 msgW =
      ⟨[], none, none, [], ["Waiting for camera info."], []⟩ :=
  c4_no_calibration_skip cfgW stNotReady envC1 msgW rfl

/-- Claim C5 as stated is false on the code: for a zero-marker frame the
published marker array is stamped with the processing-time clock, not with
the timestamp of the frame. Here the frame has timestamp 0 but the
published set carries the clock value 1. -/
theorem c5_counterexample :
    (image_callback cfgW stReady envC5 msgC5).published_marker_array =
      some ⟨1, "map", []⟩ ∧
    msgC5.stamp ≠ (1 : ℚ) := by
  decide

/-- Claim C5 (amended): for every frame with calibration ready and zero
detected markers, exactly one empty MarkerRecordSet is published, with root
frame map and stamped with the processing-time clock value rather than the
timestamp of the frame, together with the unmodified input image carrying
the original frame timestamp; no transform is broadcast. -/
theorem c5_empty_frame (cfg : NodeConfig) (st : NodeState)
    (env : CallbackEnv) (msg : ImageMsg)
    (hr : st.received_camera_info = true) (hd : env.decode_ok = true)
    (hdet : env.detections = []) :
    (image_callback cfg st env msg).published_marker_array =
      some ⟨env.now, "map", []⟩ ∧
    (image_callback cfg st env msg).published_image = some ⟨msg.stamp, []⟩ ∧
    (image_callback cfg st env msg).broadcasts = [] := by
  simp [image_callback, hr, hd, hdet, markerLoop]

/-- Witness for the amended claim C5 at a concrete zero-marker frame. -/
theorem c5_empty_frame_witness :
    (image_callback cfgW stReady envC5 msgC5).published_marker_array =
      some ⟨envC5.now, "map", []⟩ ∧
    (image_callback cfgW stReady envC5 msgC5).published_image =
      some ⟨msgC5.stamp, []⟩ ∧
    (image_callback cfgW stReady envC5 msgC5).broadcasts = [] :=
  c5_empty_frame cfgW stReady envC5 msgC5 rfl rfl rfl

/-- Claim C10: for every calibration update whose distortion vector is
empty, the stored distortion becomes the length-4 all-zero vector; for a
non-empty vector the stored distortion is the elementwise copy of the
message coefficients, hence of the same length. -/
theorem c10_distortion_update (st : CamState) (msg : CameraInfoMsg) :
    (camera_info_callback st msg).1.camera_distortion =
      if msg.d = [] then List.replicate 4 (0 : ℚ) else msg.d := by
  have h := range_map_getD msg.d
  simp only [camera_info_callback]
  rw [h]

/-- Claim C9 is violated by the code: on the first received calibration
message the logging path reads the distortion vector at indices 0 through
4 unconditionally, and with an empty distortion vector such an access is
out of bounds (none in the Option-valued embedding). -/
theorem c9_oob_access :
    none ∈ (camera_info_callback ⟨none, [], false⟩ ⟨640, 480, fun _ => 1, []⟩).2 := by
  decide

/-- Claim C6 as stated is false on the code: with the invalid dictionary
string the startup fails, but only after the image and camera-info
subscriptions were already established, because initialize resolves the
dictionary name last. -/
theorem c6_counterexample :
    (initTrace "/camera/color/image_raw" "/camera/color/camera_info"
      "NOT_A_REAL_DICT").success = false ∧
    (initTrace "/camera/color/image_raw" "/camera/color/camera_info"
      "NOT_A_REAL_DICT").subscriptions ≠ [] := by
  decide

/-- Claim C6 (amended): dictionary-name validation is exhaustive over the
enumerated set of twenty-one names: initialization succeeds exactly on
those strings and fails fatally at startup on every other string, but the
failure happens after the subscriptions have been established, since the
dictionary is resolved last in the initialization sequence. -/
theorem c6_dictionary_validation (image_topic camera_info_topic s : String) :
    ((initTrace image_topic camera_info_topic s).success = true ↔
      s ∈ validDictNames) ∧
    (initTrace image_topic camera_info_topic s).subscriptions =
      [image_topic, camera_info_topic] := by
  refine ⟨?_, rfl⟩
  show (dictNameToEnum s).isSome = true ↔ s ∈ validDictNames
  rw [dictNameToEnum, lookup_isSome_iff,
    show dictTable.map Prod.fst = validDictNames from rfl]

/-- With calibration ready, a decodable image and a normally completed
marker loop, the callback output is the published pair plus the loop
accumulators. -/
theorem image_callback_eq_normal (cfg : NodeConfig) (st : NodeState)
    (env : CallbackEnv) (msg : ImageMsg)
    (hr : st.received_camera_info = true) (hd : env.decode_ok = true)
    (hex : (markerLoop cfg env msg.stamp 0 env.detections).loopExit =
      LoopExit.normal) :
    image_callback cfg st env msg =
      ⟨(markerLoop cfg env msg.stamp 0 env.detections).broadcasts,
       some ⟨msg.stamp, (markerLoop cfg env msg.stamp 0 env.detections).annotations⟩,
       some ⟨env.now, "map", (markerLoop cfg env msg.stamp 0 env.detections).markers⟩,
       (markerLoop cfg env msg.stamp 0 env.detections).warnings, [], []⟩ := by
  simp [image_callback, hr, hd, hex]

/-- With calibration ready and a decodable image, an aborted marker loop
leaves only the already-sent broadcasts and the warnings; nothing is
published. -/
theorem image_callback_eq_abort (cfg : NodeConfig) (st : NodeState)
    (env : CallbackEnv) (msg : ImageMsg)
    (hr : st.received_camera_info = true) (hd : env.decode_ok = true)
    (hex : (markerLoop cfg env msg.stamp 0 env.detections).loopExit ≠
      LoopExit.normal) :
    image_callback cfg st env msg =
      ⟨(markerLoop cfg env msg.stamp 0 env.detections).broadcasts, none, none,
       (markerLoop cfg env msg.stamp 0 env.detections).warnings, [], []⟩ := by
  rcases hexit : (markerLoop cfg env msg.stamp 0 env.detections).loopExit with _ | k | k
  · exact absurd hexit hex
  all_goals simp [image_callback, hr, hd, hexit]

/-- Claim C1 as stated is false on the code: in a frame whose marker loop
aborts early (here a degenerate pose at index 0), neither the annotated
image nor the marker record set is published, because both the early
return and the exception handler leave the callback before the publish
calls at the end of the try block. -/
theorem c1_counterexample :
    (image_callback cfgW stReady envC1 msgW).published_image = none ∧
    (image_callback cfgW stReady envC1 msgW).published_marker_array = none := by
  decide

/-- Claim C1 (amended): for every frame whose marker loop aborts early
(degenerate pose at some index, or failed root-to-camera transform
lookup), the pipeline publishes neither the annotated image nor the
MarkerRecordSet for that frame; annotations and records completed before
the abort are discarded, and only the transform broadcasts already sent
survive. -/
theorem c1_abort_publishes_nothing (cfg : NodeConfig) (st : NodeState)
    (env : CallbackEnv) (msg : ImageMsg)
    (hr : st.received_camera_info = true) (hd : env.decode_ok = true)
    (habort : (markerLoop cfg env msg.stamp 0 env.detections).loopExit ≠
      LoopExit.normal) :
    (image_callback cfg st env msg).published_image = none ∧
    (image_callback cfg st env msg).published_marker_array = none := by
  rw [image_callback_eq_abort cfg st env msg hr hd habort]
  exact ⟨rfl, rfl⟩

/-- Witness for the amended claim C1 at a concrete aborting frame. -/
theorem c1_abort_publishes_nothing_witness :
    (image_callback cfgW stReady envC1 msgW).published_image = none ∧
    (image_callback cfgW stReady envC1 msgW).published_marker_array = none :=
  c1_abort_publishes_nothing cfgW stReady envC1 msgW rfl rfl (by decide)

/-- Claim C2 as stated is false on the code: with two well-posed markers
and a failing map-to-camera lookup, only one transform broadcast occurs,
not two, because the lookup exception in the first iteration aborts the
loop before the second marker is processed. -/
theorem c2_counterexample :
    (image_callback cfgW stReady envC2 msgW).broadcasts.length = 1 ∧
    (image_callback cfgW stReady envC2 msgW).published_marker_array = none := by
  decide

/-- Claim C2 (amended): for a frame with calibration ready, at least one
detected marker with a well-conditioned pose, and a failing map-to-camera
lookup, zero marker records are published for that frame, and exactly one
per-marker transform broadcast occurs, for the first marker in detection
order: its broadcast precedes the failing lookup in processing order, and
the lookup failure aborts the loop before any later marker is reached. -/
theorem c2_lookup_failure (cfg : NodeConfig) (st : NodeState)
    (env : CallbackEnv) (msg : ImageMsg) (d : DetectedMarker)
    (rest : List DetectedMarker)
    (hr : st.received_camera_info = true) (hd : env.decode_ok = true)
    (hdet : env.detections = d :: rest)
    (hp : env.poses.getD 0 none ≠ none)
    (hmap : env.map_to_camera = none) :
    (image_callback cfg st env msg).broadcasts.length = 1 ∧
    (image_callback cfg st env msg).published_marker_array = none ∧
    ∀ b ∈ (image_callback cfg st env msg).broadcasts,
      b.child_frame_id = "aruco_marker_" ++ toString d.id ∧
      b.frame_id = cfg.camera_frame ∧ b.stamp = env.now := by
  obtain ⟨p, hp2⟩ := Option.ne_none_iff_exists'.mp hp
  have hml : markerLoop cfg env msg.stamp 0 env.detections =
      ⟨[⟨env.now, cfg.camera_frame, "aruco_marker_" ++ toString d.id, p.tvec,
         env.matToQuat (env.rodrigues p.rvec)⟩], [], [],
       LoopExit.lookupFail 0, ["TF2 exception"]⟩ := by
    rw [hdet]
    simp only [markerLoop, hp2, hmap]
  have habort : (markerLoop cfg env msg.stamp 0 env.detections).loopExit ≠
      LoopExit.normal := by
    rw [hml]
    simp
  rw [image_callback_eq_abort cfg st env msg hr hd habort, hml]
  refine ⟨rfl, rfl, ?_⟩
  intro b hb
  simp only [List.mem_singleton] at hb
  subst hb
  exact ⟨rfl, rfl, rfl⟩

/-- Witness for the amended claim C2 at a concrete two-marker frame with
a failing lookup. -/
theorem c2_lookup_failure_witness :
    (image_callback cfgW stReady envC2 msgW).broadcasts.length = 1 ∧
    (image_callback cfgW stReady envC2 msgW).published_marker_array = none :=
  let h := c2_lookup_failure cfgW stReady envC2 msgW marker7 [marker12] rfl rfl rfl
    (by decide) rfl
  ⟨h.1, h.2.1⟩

/-- Claim C3: for every frame in which the pose estimator returns a
degenerate pose row at index k, a warning is emitted and processing of
the entire remaining frame is aborted: no transform broadcast is sent
for any candidate at index k or later (at most the first k candidates
were broadcast), and no marker record is published at all for the frame
(nor is the annotated image). -/
theorem c3_degenerate_abort (cfg : NodeConfig) (st : NodeState)
    (env : CallbackEnv) (msg : ImageMsg) (k : ℕ)
    (hr : st.received_camera_info = true) (hd : env.decode_ok = true)
    (hk : k < env.detections.length)
    (hdeg : env.poses.getD k none = none) :
    (image_callback cfg st env msg).warnings ≠ [] ∧
    (image_callback cfg st env msg).broadcasts.length ≤ k ∧
    (image_callback cfg st env msg).published_marker_array = none ∧
    (image_callback cfg st env msg).published_image = none := by
  have h := markerLoop_abort cfg env msg.stamp env.detections 0 k hk
    (by simpa using hdeg)
  rw [image_callback_eq_abort cfg st env msg hr hd h.1]
  exact ⟨h.2.2, h.2.1, rfl, rfl⟩

/-- Witness for claim C3 at a concrete frame with a degenerate pose at
index 0. -/
theorem c3_degenerate_abort_witness :
    (image_callback cfgW stReady envC1 msgW).warnings ≠ [] ∧
    (image_callback cfgW stReady envC1 msgW).broadcasts.length ≤ 0 ∧
    (image_callback cfgW stReady envC1 msgW).published_marker_array = none ∧
    (image_callback cfgW stReady envC1 msgW).published_image = none :=
  c3_degenerate_abort cfgW stReady envC1 msgW 0 rfl rfl (by decide) rfl

/-- The broadcasts of a callback activation with calibration ready and a
decodable image are exactly the broadcasts accumulated by the marker
loop, whether or not the loop aborted. -/
theorem image_callback_broadcasts (cfg : NodeConfig) (st : NodeState)
    (env : CallbackEnv) (msg : ImageMsg)
    (hr : st.received_camera_info = true) (hd : env.decode_ok = true) :
    (image_callback cfg st env msg).broadcasts =
      (markerLoop cfg env msg.stamp 0 env.detections).broadcasts := by
  by_cases hex : (markerLoop cfg env msg.stamp 0 env.detections).loopExit =
    LoopExit.normal
  · rw [image_callback_eq_normal cfg st env msg hr hd hex]
  · rw [image_callback_eq_abort cfg st env msg hr hd hex]

/-- When a callback activation publishes a marker array, its records are
exactly the records accumulated by the marker loop, its stamp is the
clock value and its root frame is map. -/
theorem image_callback_published_array (cfg : NodeConfig) (st : NodeState)
    (env : CallbackEnv) (msg : ImageMsg) (arr : MarkerArrayMsg)
    (hr : st.received_camera_info = true) (hd : env.decode_ok = true)
    (ha : (image_callback cfg st env msg).published_marker_array = some arr) :
    arr = ⟨env.now, "map", (markerLoop cfg env msg.stamp 0 env.detections).markers⟩ := by
  by_cases hex : (markerLoop cfg env msg.stamp 0 env.detections).loopExit =
    LoopExit.normal
  · rw [image_callback_eq_normal cfg st env msg hr hd hex] at ha
    exact (Option.some.inj ha).symm
  · rw [image_callback_eq_abort cfg st env msg hr hd hex] at ha
    exact absurd ha (by simp)

/-- Claim C7: for every successfully processed marker, the broadcast
transform has parent frame equal to the configured camera frame, child
frame equal to aruco_marker_ followed by the marker id, and is stamped
with the processing-time clock, while every published marker record
carries the original image timestamp and the root frame map. -/
theorem c7_frames_and_stamps (cfg : NodeConfig) (st : NodeState)
    (env : CallbackEnv) (msg : ImageMsg) (arr : MarkerArrayMsg)
    (b : TransformStamped) (m : MarkerMsg)
    (hr : st.received_camera_info = true) (hd : env.decode_ok = true)
    (hb : b ∈ (image_callback cfg st env msg).broadcasts)
    (ha : (image_callback cfg st env msg).published_marker_array = some arr)
    (hm : m ∈ arr.markers) :
    b.frame_id = cfg.camera_frame ∧ b.stamp = env.now ∧
    (∃ d ∈ env.detections, b.child_frame_id = "aruco_marker_" ++ toString d.id) ∧
    m.frame_id = "map" ∧ m.stamp = msg.stamp := by
  have hsh := markerLoop_shape cfg env msg.stamp env.detections 0
  rw [image_callback_broadcasts cfg st env msg hr hd] at hb
  have harr := image_callback_published_array cfg st env msg arr hr hd ha
  subst harr
  obtain ⟨h1, h2, hex⟩ := hsh.1 b hb
  obtain ⟨h3, h4⟩ := hsh.2 m hm
  exact ⟨h1, h2, hex, h3, h4⟩

/-- The broadcast produced for the single marker of the successful
concrete frame envC7. -/
def bW : TransformStamped :=
  ⟨5, "camera_rgb_optical_frame", "aruco_marker_" ++ toString (7 : Int),
   ⟨1, 2, 3⟩, idQuat⟩

/-- The composed world pose of that marker. -/
def mWpose : TF2Transform :=
  tf2Mul (transformOfMsg idTransformMsg) (transformOfMsg ⟨⟨1, 2, 3⟩, idQuat⟩)

/-- The marker record produced for that marker. -/
def mW : MarkerMsg := ⟨"map", 2, 7, mWpose, 10, 20⟩

/-- The marker array published for that frame. -/
def arrW : MarkerArrayMsg := ⟨5, "map", [mW]⟩

/-- Witness for claim C7 at the concrete successful one-marker frame. -/
theorem c7_frames_and_stamps_witness :
    bW.frame_id = cfgW.camera_frame ∧ bW.stamp = envC7.now ∧
    mW.frame_id = "map" ∧ mW.stamp = msgW.stamp :=
  let h := c7_frames_and_stamps cfgW stReady envC7 msgW arrW bW mW rfl rfl
    (List.mem_singleton.mpr rfl) rfl (List.mem_cons_self mW [])
  ⟨h.1, h.2.1, h.2.2.2.1, h.2.2.2.2⟩

/-- Claim C8: for every pair of rigid transforms given by unit rotation
quaternions, the composition the pipeline computes through tf2 (convert
both messages to basis matrices with fromMsg, then multiply with the tf2
Transform product) equals standard rigid-transform composition: the
rotation is the quaternion product and the translation is the rotation of
the first transform applied to the translation of the second plus the
translation of the first. -/
theorem c8_composition (q1 q2 : Quat) (t1 t2 : Vec3)
    (h1 : length2 q1 = 1) (h2 : length2 q2 = 1) :
    tf2Mul (transformOfMsg ⟨t1, q1⟩) (transformOfMsg ⟨t2, q2⟩) =
      ⟨matFromQuat (specCompose q1 t1 q2 t2).1, (specCompose q1 t1 q2 t2).2⟩ := by
  have h12 : length2 (quatMul q1 q2) = 1 := by
    rw [length2_quatMul, h1, h2]; norm_num
  simp only [tf2Mul, transformOfMsg, specCompose]
  congr 1
  rw [matFromQuat_of_unit q1 h1, matFromQuat_of_unit q2 h2,
    matFromQuat_of_unit (quatMul q1 q2) h12, matHomog_mul]

/-- A unit quaternion with rational components. -/
def q1W : Quat := ⟨3 / 5, 4 / 5, 0, 0⟩

/-- Another unit quaternion with rational components. -/
def q2W : Quat := ⟨0, 3 / 5, 4 / 5, 0⟩

/-- Witness for claim C8 at a concrete pair of rational unit quaternions
and translations. -/
theorem c8_composition_witness :
    length2 q1W = 1 ∧ length2 q2W = 1 ∧
    tf2Mul (transformOfMsg ⟨⟨1, 2, 3⟩, q1W⟩) (transformOfMsg ⟨⟨4, 5, 6⟩, q2W⟩) =
      ⟨matFromQuat (specCompose q1W ⟨1, 2, 3⟩ q2W ⟨4, 5, 6⟩).1,
       (specCompose q1W ⟨1, 2, 3⟩ q2W ⟨4, 5, 6⟩).2⟩ :=
  ⟨by norm_num [length2, q1W], by norm_num [length2, q2W],
   c8_composition q1W q2W ⟨1, 2, 3⟩ ⟨4, 5, 6⟩
     (by norm_num [length2, q1W]) (by norm_num [length2, q2W])⟩

end ArucoRos2
